import Mathlib

/-
Shallow embedding of src/src/server_litellm/server.py: the completion
dispatcher of the litellm MCP server.  Python dicts with the fields the
code reads are embedded as structures with Option-valued fields
(a `none` field is an absent key); `dict.get(k, d)` becomes
`Option.getD`; raised RuntimeErrors become an error inductive whose
constructors are in bijection with the distinct raise sites, with
`errorMessage` rendering the exact Python message string.  The remote
side (httpx post on the direct path, the litellm `completion` library
on the other) is a `Transport` parameter, so theorems quantified over
every transport express that no network call influences the result.
-/

/- Supported models allow-list, server.py lines 62-65 (Claude first as default). -/
def SUPPORTED_MODELS : List String :=
  ["anthropic.claude-3-7-sonnet-20250219-v1:0", "gpt-4o"]

/- The default model used by `arguments.get("model", ...)` at line 147,
   and the model compared against at line 164 for the direct path. -/
def defaultModel : String := "anthropic.claude-3-7-sonnet-20250219-v1:0"

/- `validate_model`, server.py lines 67-69. -/
def validate_model (model : String) : Bool :=
  SUPPORTED_MODELS.contains model

/- One conversation message: a dict of which the code (and its schema)
   only ever mentions the keys "role" and "content". -/
structure Msg where
  role : Option String
  content : Option String
deriving Repr, DecidableEq

/- The `arguments` dict of a "complete" tool call: each key may be
   absent.  Temperature is a float only ever passed through, embedded
   exactly as a rational; max_tokens likewise as an integer. -/
structure Arguments where
  model : Option String
  messages : Option (List Msg)
  temperature : Option Rat
  max_tokens : Option Int
  stream : Option Bool
deriving Repr, DecidableEq

/- `choices[0].get("message", {})` value: a dict whose "content" key may
   be absent. -/
structure Message where
  content : Option String
deriving Repr, DecidableEq

/- One element of the response "choices" array. -/
structure Choice where
  message : Option Message
deriving Repr, DecidableEq

/- The "usage" dict, read only for logging (line 190-192). -/
structure Usage where
  total_tokens : Option Nat
deriving Repr, DecidableEq

/- A remote response dict: `response.get("choices", [])` and
   `response.get("usage", {})` are the only reads. -/
structure ResponseBody where
  choices : Option (List Choice)
  usage : Option Usage
deriving Repr, DecidableEq

/- Environment-derived configuration (server.py lines 32-34):
   LITELLM_PROXY_URL defaults to "http://localhost:4000",
   LITELLM_API_KEY is optional. -/
structure Config where
  litellm_proxy_url : String
  litellm_api_key : Option String
deriving Repr, DecidableEq

/- Every distinct RuntimeError raise site of the completion path.
   `llmApiError` is the re-wrap at line 199 applied to whatever escaped
   the try block. -/
inductive CompletionError where
  | unsupportedModel (model : String)
  | invalidMessages
  | emptyResponse
  | proxyError (status : Nat) (body : String)
  | proxyTimeout (msg : String)
  | proxyConnectionError (msg : String)
  | proxyCallError (msg : String)
  | libraryError (msg : String)
  | llmApiError (inner : CompletionError)
deriving Repr, DecidableEq

/- The message string each raise site formats (lines 155, 159, 185, 240,
   245, 248, 252, 199). -/
def errorMessage : CompletionError → String
  | .unsupportedModel m =>
      "Unsupported model: " ++ m ++ ". Supported models: " ++
        String.intercalate ", " SUPPORTED_MODELS
  | .invalidMessages => "Messages must be a non-empty list"
  | .emptyResponse => "No choices returned from the model"
  | .proxyError s b => "Proxy error: " ++ toString s ++ " - " ++ b
  | .proxyTimeout m => "Proxy timeout error: " ++ m
  | .proxyConnectionError m => "Proxy connection error: " ++ m
  | .proxyCallError m => "Proxy call error: " ++ m
  | .libraryError m => m
  | .llmApiError e => "LLM API error: " ++ errorMessage e

/- The JSON payload of the direct proxy call (lines 205-211); the same
   five fields are also what the library path forwards. -/
structure ProxyPayload where
  model : String
  messages : List Msg
  temperature : Rat
  max_tokens : Int
  stream : Bool
deriving Repr, DecidableEq

/- Parameters handed to the litellm `completion` library (lines
   168-178): the payload fields plus api_key when LITELLM_API_KEY is
   set. -/
structure LibraryParams where
  model : String
  messages : List Msg
  temperature : Rat
  max_tokens : Int
  stream : Bool
  api_key : Option String
deriving Repr, DecidableEq

/- Which of the two call paths a validated request takes (lines
   163-180). -/
inductive Dispatch where
  | direct (payload : ProxyPayload)
  | library (params : LibraryParams)
deriving Repr, DecidableEq

/- The pure prefix of `_handle_completion` (lines 146-180): argument
   extraction with defaults, model validation, messages validation, and
   the choice of call path.  The Python check
   `not messages or not isinstance(messages, list)` reduces to emptiness
   here because the embedded messages value is always a list. -/
def validateAndDispatch (cfg : Config) (args : Arguments) : Except CompletionError Dispatch :=
  let model := args.model.getD defaultModel
  let messages := args.messages.getD []
  let temperature := args.temperature.getD (7 / 10 : Rat)
  let max_tokens := args.max_tokens.getD 1000
  let stream := args.stream.getD false
  if validate_model model = false then
    .error (.unsupportedModel model)
  else if messages.isEmpty then
    .error .invalidMessages
  else if model = defaultModel then
    .ok (.direct ⟨model, messages, temperature, max_tokens, stream⟩)
  else
    .ok (.library ⟨model, messages, temperature, max_tokens, stream, cfg.litellm_api_key⟩)

/- f"Bearer {LITELLM_API_KEY}" (line 215): Python renders a missing key
   as the string "None". -/
def bearerToken (cfg : Config) : String :=
  match cfg.litellm_api_key with
  | some k => k
  | none => "None"

/- The HTTP request the direct path posts (lines 213-229). -/
structure DirectRequest where
  url : String
  payload : ProxyPayload
  authorization : String
deriving Repr, DecidableEq

def proxyRequest (cfg : Config) (p : ProxyPayload) : DirectRequest :=
  ⟨cfg.litellm_proxy_url ++ "/v1/chat/completions", p, "Bearer " ++ bearerToken cfg⟩

/- What the remote side does with a direct HTTP post: an HTTP response
   (carrying the status, the parsed JSON body and the raw text), or one
   of the httpx exception kinds caught at lines 242-252. -/
inductive TransportOutcome where
  | response (status : Nat) (body : ResponseBody) (text : String)
  | timeout (msg : String)
  | connectError (msg : String)
  | otherFailure (msg : String)
deriving Repr, DecidableEq

/- What the litellm `completion` library call does: return a response
   dict, or raise (caught only by the outer handler at line 197). -/
inductive LibraryOutcome where
  | success (body : ResponseBody)
  | failure (msg : String)
deriving Repr, DecidableEq

/- The remote world, as seen through the two call paths. -/
structure Transport where
  direct : DirectRequest → TransportOutcome
  library : LibraryParams → LibraryOutcome

/- `_call_proxy_direct` (lines 201-252): posts the payload with the
   bearer header and returns the JSON body on status 200.  The non-200
   raise at line 240 sits inside the same try block, so it is caught
   again by the `except Exception` clause at line 249 and re-raised as
   "Proxy call error: {e}": the generic kind carrying the rendered
   proxy-error message (which itself carries the status and the body
   text).  The httpx timeout and connect exceptions are caught by their
   own clauses, and the raises inside all the except handlers propagate
   without further re-wrapping here. -/
def call_proxy_direct (cfg : Config) (t : Transport) (p : ProxyPayload) :
    Except CompletionError ResponseBody :=
  match t.direct (proxyRequest cfg p) with
  | .response status body text =>
      if status = 200 then .ok body
      else .error (.proxyCallError (errorMessage (.proxyError status text)))
  | .timeout m => .error (.proxyTimeout m)
  | .connectError m => .error (.proxyConnectionError m)
  | .otherFailure m => .error (.proxyCallError m)

/- Running the chosen call path (lines 163-180): the direct proxy call,
   or the library call whose exceptions reach the outer handler. -/
def runDispatch (cfg : Config) (t : Transport) (d : Dispatch) :
    Except CompletionError ResponseBody :=
  match d with
  | .direct p => call_proxy_direct cfg t p
  | .library p =>
      match t.library p with
      | .success b => .ok b
      | .failure m => .error (.libraryError m)

/- Response normalization (lines 182-187): take choices (defaulting to
   []), fail when empty, else extract the first choice content with the
   placeholder default. -/
def extractText (body : ResponseBody) : Except CompletionError String :=
  match body.choices.getD [] with
  | [] => .error .emptyResponse
  | c :: _ => .ok (((c.message.getD ⟨none⟩).content).getD "Error: No response content.")

/- An MCP TextContent item (line 195). -/
structure TextContent where
  type : String
  text : String
deriving Repr, DecidableEq

/- The body of the try block of `_handle_completion` (lines 146-195). -/
def handleCompletionBody (cfg : Config) (t : Transport) (args : Arguments) :
    Except CompletionError (List TextContent) := do
  let d ← validateAndDispatch cfg args
  let body ← runDispatch cfg t d
  let text ← extractText body
  pure [⟨"text", text⟩]

/- `_handle_completion` (lines 142-199): the outer except clause wraps
   whatever escaped the try block into "LLM API error: ...". -/
def handleCompletion (cfg : Config) (t : Transport) (args : Arguments) :
    Except CompletionError (List TextContent) :=
  match handleCompletionBody cfg t args with
  | .ok r => .ok r
  | .error e => .error (.llmApiError e)

/- The text built by `_handle_list_models` (lines 254-262). -/
def models_text : String :=
  "Available models in this MCP server:\n" ++
    String.intercalate "\n" (SUPPORTED_MODELS.map (fun model => "- " ++ model)) ++
    "\n\nNote: Only these two models are supported for security and performance reasons."

def handle_list_models : List TextContent :=
  [⟨"text", models_text⟩]

/-
Fixtures: concrete configurations, arguments and stub transports used by
witnesses and counterexamples.
-/

def defaultConfig : Config := ⟨"http://localhost:4000", none⟩

/- A stub remote returning status 200 with a single choice whose content
   is `s`, on both call paths. -/
def stubBody (s : String) : ResponseBody := ⟨some [⟨some ⟨some s⟩⟩], none⟩

def stubTransport (s : String) : Transport :=
  ⟨fun _ => .response 200 (stubBody s) "", fun _ => .success (stubBody s)⟩

def argsUnknownModel : Arguments :=
  ⟨some "unknown-model-x", some [⟨some "user", some "hi"⟩], none, none, none⟩

def argsMissingRole : Arguments :=
  ⟨some "gpt-4o", some [⟨none, some "2+2?"⟩], some (1 / 10), some 50, none⟩

def argsEmptyMessages : Arguments := ⟨some "gpt-4o", some [], none, none, none⟩

def argsClaude : Arguments :=
  ⟨some defaultModel, some [⟨some "user", some "hi"⟩], none, none, none⟩

def argsGpt : Arguments :=
  ⟨some "gpt-4o", some [⟨some "user", some "2+2?"⟩], some (1 / 10), some 50, none⟩

/-- C1: for every call to complete whose model argument is not in the
allow-list, the result is the UnsupportedModel failure (wrapped by the
outer handler) for every transport and all other arguments whatsoever,
so the model check wins before any other validation and no transport
call is ever made. -/
theorem c1_unsupported_model_rejected_before_transport
    (cfg : Config) (t : Transport) (args : Arguments) (m : String)
    (hm : args.model = some m) (hns : m ∉ SUPPORTED_MODELS) :
    handleCompletion cfg t args = .error (.llmApiError (.unsupportedModel m)) := by
  have hv : validate_model m = false := by simpa [validate_model] using hns
  simp [handleCompletion, handleCompletionBody, validateAndDispatch, hm, hv,
    Bind.bind, Except.bind, Pure.pure, Except.pure]

/-- C1 witness at the spec scenario model "unknown-model-x". -/
theorem c1_witness :
    argsUnknownModel.model = some "unknown-model-x" ∧
    "unknown-model-x" ∉ SUPPORTED_MODELS ∧
    handleCompletion defaultConfig (stubTransport "4") argsUnknownModel
      = .error (.llmApiError (.unsupportedModel "unknown-model-x")) :=
  ⟨rfl, by decide,
    c1_unsupported_model_rejected_before_transport _ _ _ _ rfl (by decide)⟩

/-- C2 counterexample: with the allow-listed model "gpt-4o" and a
messages entry missing the role field, complete does not fail with
InvalidMessages: the request reaches the library transport and the
stub answer is returned. -/
theorem c2_counterexample :
    handleCompletion defaultConfig (stubTransport "4") argsMissingRole
      = .ok [⟨"text", "4"⟩] ∧
    handleCompletion defaultConfig (stubTransport "4") argsMissingRole
      ≠ .error (.llmApiError .invalidMessages) :=
  ⟨rfl, fun h => nomatch h⟩

/-- C2 amended: with an allow-listed model, complete fails with
InvalidMessages (for every transport, so before any network call)
exactly when messages is empty; the code performs no per-entry
role/content check, so every non-empty messages list passes validation
and proceeds to dispatch. -/
theorem c2_messages_checked_only_for_emptiness
    (cfg : Config) (t : Transport) (args : Arguments)
    (hv : validate_model (args.model.getD defaultModel) = true) :
    ((args.messages.getD []).isEmpty = true →
      handleCompletion cfg t args = .error (.llmApiError .invalidMessages)) ∧
    ((args.messages.getD []).isEmpty = false →
      ∃ d, validateAndDispatch cfg args = .ok d) := by
  constructor
  · intro he
    simp [handleCompletion, handleCompletionBody, validateAndDispatch, hv, he,
      Bind.bind, Except.bind, Pure.pure, Except.pure]
  · intro he
    unfold validateAndDispatch
    simp [hv, he]
    split
    · exact ⟨_, rfl⟩
    · exact ⟨_, rfl⟩

/-- C2 witness: empty messages with an allow-listed model fail with
InvalidMessages. -/
theorem c2_witness :
    validate_model (argsEmptyMessages.model.getD defaultModel) = true ∧
    handleCompletion defaultConfig (stubTransport "4") argsEmptyMessages
      = .error (.llmApiError .invalidMessages) :=
  ⟨by decide,
    (c2_messages_checked_only_for_emptiness defaultConfig (stubTransport "4")
      argsEmptyMessages (by decide)).1 (by decide)⟩

/-- C3: for every valid request (allow-listed model, non-empty
messages), the request is dispatched to the direct proxy path exactly
when the model is anthropic.claude-3-7-sonnet-20250219-v1:0, the direct
request being posted to the chat-completions endpoint of the proxy
base URL; every other allow-listed model goes to the generic completion
library with the same model, messages, temperature, max_tokens and
stream parameters. -/
theorem c3_dispatch_direct_iff_primary_model
    (cfg : Config) (args : Arguments)
    (hv : validate_model (args.model.getD defaultModel) = true)
    (hne : (args.messages.getD []).isEmpty = false) :
    (args.model.getD defaultModel = defaultModel →
      validateAndDispatch cfg args = .ok (.direct
        ⟨defaultModel, args.messages.getD [], args.temperature.getD (7 / 10),
         args.max_tokens.getD 1000, args.stream.getD false⟩)) ∧
    (args.model.getD defaultModel ≠ defaultModel →
      validateAndDispatch cfg args = .ok (.library
        ⟨args.model.getD defaultModel, args.messages.getD [],
         args.temperature.getD (7 / 10), args.max_tokens.getD 1000,
         args.stream.getD false, cfg.litellm_api_key⟩)) ∧
    (∀ p : ProxyPayload,
      (proxyRequest cfg p).url = cfg.litellm_proxy_url ++ "/v1/chat/completions") := by
  refine ⟨?_, ?_, fun p => rfl⟩
  · intro hmod
    rw [hmod] at hv
    simp [validateAndDispatch, hv, hne, hmod]
  · intro hmod
    simp [validateAndDispatch, hv, hne, hmod]

/-- C3 witness: the default Claude model takes the direct path. -/
theorem c3_witness :
    validate_model (argsClaude.model.getD defaultModel) = true ∧
    validateAndDispatch defaultConfig argsClaude
      = .ok (.direct ⟨defaultModel, [⟨some "user", some "hi"⟩], 7 / 10, 1000, false⟩) :=
  ⟨by decide,
    (c3_dispatch_direct_iff_primary_model defaultConfig argsClaude (by decide)
      (by decide)).1 rfl⟩

/-- C4: for every remote response with status 200 and exactly one
choice carrying message content s, complete returns exactly s as the
result text, unmodified, on both the direct and the library call
path. -/
theorem c4_returns_single_choice_content
    (cfg : Config) (t : Transport) (args : Arguments) (s : String)
    (u : Option Usage) (txt : String) :
    (∀ p, validateAndDispatch cfg args = .ok (.direct p) →
      t.direct (proxyRequest cfg p) = .response 200 ⟨some [⟨some ⟨some s⟩⟩], u⟩ txt →
      handleCompletion cfg t args = .ok [⟨"text", s⟩]) ∧
    (∀ p, validateAndDispatch cfg args = .ok (.library p) →
      t.library p = .success ⟨some [⟨some ⟨some s⟩⟩], u⟩ →
      handleCompletion cfg t args = .ok [⟨"text", s⟩]) := by
  constructor <;> intro p hd hr <;>
    simp [handleCompletion, handleCompletionBody, hd, runDispatch, call_proxy_direct,
      hr, extractText, Bind.bind, Except.bind, Pure.pure, Except.pure]

/-- C4 witness at the spec scenario: gpt-4o asked for 2+2 against a stub
returning one choice with content "4" gives exactly "4". -/
theorem c4_witness :
    handleCompletion defaultConfig (stubTransport "4") argsGpt = .ok [⟨"text", "4"⟩] :=
  (c4_returns_single_choice_content defaultConfig (stubTransport "4") argsGpt "4"
      none "").2
    ⟨"gpt-4o", [⟨some "user", some "2+2?"⟩], 1 / 10, 50, false, none⟩ rfl rfl

/-- C5: for every remote response whose choices list is absent or empty,
complete fails with EmptyResponse and returns no text, on both call
paths. -/
theorem c5_empty_choices_fails_empty_response
    (cfg : Config) (t : Transport) (args : Arguments)
    (cs : Option (List Choice)) (u : Option Usage) (txt : String)
    (hcs : cs.getD [] = []) :
    (∀ p, validateAndDispatch cfg args = .ok (.direct p) →
      t.direct (proxyRequest cfg p) = .response 200 ⟨cs, u⟩ txt →
      handleCompletion cfg t args = .error (.llmApiError .emptyResponse)) ∧
    (∀ p, validateAndDispatch cfg args = .ok (.library p) →
      t.library p = .success ⟨cs, u⟩ →
      handleCompletion cfg t args = .error (.llmApiError .emptyResponse)) := by
  constructor <;> intro p hd hr <;>
    simp [handleCompletion, handleCompletionBody, hd, runDispatch, call_proxy_direct,
      hr, extractText, hcs, Bind.bind, Except.bind, Pure.pure, Except.pure]

def emptyChoicesTransport : Transport :=
  ⟨fun _ => .response 200 ⟨some [], none⟩ "", fun _ => .success ⟨some [], none⟩⟩

/-- C5 witness: a stub returning zero choices makes the direct path fail
with EmptyResponse. -/
theorem c5_witness :
    handleCompletion defaultConfig emptyChoicesTransport argsClaude
      = .error (.llmApiError .emptyResponse) :=
  (c5_empty_choices_fails_empty_response defaultConfig emptyChoicesTransport argsClaude
      (some []) none "" rfl).1
    ⟨defaultModel, [⟨some "user", some "hi"⟩], 7 / 10, 1000, false⟩ rfl rfl

def status201Transport : Transport :=
  ⟨fun _ => .response 201 ⟨some [⟨some ⟨some "ok"⟩⟩], none⟩ "Created",
   fun _ => .success ⟨some [⟨some ⟨some "ok"⟩⟩], none⟩⟩

/-- C6 counterexample: status 201 is a 2xx status, yet the direct path
does not succeed, because the code tests the status against 200
exactly; moreover the failure is not the bare ProxyError kind, since
the raise at line 240 is caught again by the except-Exception clause
at line 249 and re-surfaced as the generic Proxy call error kind
around the proxy-error message, so the final message is exactly
"LLM API error: Proxy call error: Proxy error: 201 - Created". -/
theorem c6_counterexample :
    (200 ≤ 201 ∧ 201 < 300) ∧
    handleCompletion defaultConfig status201Transport argsClaude
      = .error (.llmApiError (.proxyCallError (errorMessage (.proxyError 201 "Created")))) ∧
    errorMessage (.llmApiError (.proxyCallError (errorMessage (.proxyError 201 "Created"))))
      = "LLM API error: Proxy call error: Proxy error: 201 - Created" :=
  ⟨by decide, rfl, rfl⟩

/-- C6 amended: on the direct path the call succeeds (returning the
JSON body) exactly when the status is 200; every non-200 status, other
2xx statuses included, fails, and the failure surfaced through
complete is the generic Proxy call error kind wrapping the rendered
proxy-error message, which carries that status code and the response
body text. -/
theorem c6_direct_success_iff_status_200
    (cfg : Config) (t : Transport) (args : Arguments) (p : ProxyPayload)
    (status : Nat) (body : ResponseBody) (txt : String)
    (hd : validateAndDispatch cfg args = .ok (.direct p))
    (hr : t.direct (proxyRequest cfg p) = .response status body txt) :
    (status = 200 → call_proxy_direct cfg t p = .ok body) ∧
    (status ≠ 200 →
      handleCompletion cfg t args
        = .error (.llmApiError (.proxyCallError (errorMessage (.proxyError status txt))))) := by
  constructor
  · intro h
    simp [call_proxy_direct, hr, h]
  · intro h
    simp [handleCompletion, handleCompletionBody, hd, runDispatch, call_proxy_direct,
      hr, h, Bind.bind, Except.bind, Pure.pure, Except.pure]

def status500Transport : Transport :=
  ⟨fun _ => .response 500 ⟨none, none⟩ "server error", fun _ => .failure "unused"⟩

/-- C6 witness at the spec scenario: HTTP 500 with body "server error"
surfaces as the generic kind wrapping the proxy-error message carrying
500 and that body. -/
theorem c6_witness :
    handleCompletion defaultConfig status500Transport argsClaude
      = .error (.llmApiError
          (.proxyCallError (errorMessage (.proxyError 500 "server error")))) :=
  (c6_direct_success_iff_status_200 defaultConfig status500Transport argsClaude
      ⟨defaultModel, [⟨some "user", some "hi"⟩], 7 / 10, 1000, false⟩ 500 ⟨none, none⟩
      "server error" rfl rfl).2 (by decide)

/-- C7: on the direct path a transport timeout surfaces through
complete as the ProxyTimeout kind, a connection failure as the
ProxyConnectionError kind, and any other transport exception as the
generic ProxyCallError kind; the three wrapped kinds are pairwise
distinct and their rendered messages keep distinct prefixes, so the
caller can tell them apart at the boundary of complete. -/
theorem c7_timeout_and_connection_kinds_distinct
    (cfg : Config) (t : Transport) (args : Arguments) (p : ProxyPayload) (m : String)
    (hd : validateAndDispatch cfg args = .ok (.direct p)) :
    (t.direct (proxyRequest cfg p) = .timeout m →
      handleCompletion cfg t args = .error (.llmApiError (.proxyTimeout m))) ∧
    (t.direct (proxyRequest cfg p) = .connectError m →
      handleCompletion cfg t args = .error (.llmApiError (.proxyConnectionError m))) ∧
    (t.direct (proxyRequest cfg p) = .otherFailure m →
      handleCompletion cfg t args = .error (.llmApiError (.proxyCallError m))) ∧
    (∀ s : String,
      CompletionError.llmApiError (.proxyTimeout m)
          ≠ .llmApiError (.proxyConnectionError s) ∧
      CompletionError.llmApiError (.proxyTimeout m)
          ≠ .llmApiError (.proxyCallError s) ∧
      CompletionError.llmApiError (.proxyConnectionError m)
          ≠ .llmApiError (.proxyCallError s)) := by
  refine ⟨?_, ?_, ?_, fun s => ⟨by simp, by simp, by simp⟩⟩ <;> intro hr <;>
    simp [handleCompletion, handleCompletionBody, hd, runDispatch, call_proxy_direct,
      hr, Bind.bind, Except.bind, Pure.pure, Except.pure]

def timeoutTransport : Transport :=
  ⟨fun _ => .timeout "read timeout", fun _ => .failure "unused"⟩

/-- C7 witness: a stub that times out yields the ProxyTimeout kind. -/
theorem c7_witness :
    handleCompletion defaultConfig timeoutTransport argsClaude
      = .error (.llmApiError (.proxyTimeout "read timeout")) :=
  (c7_timeout_and_connection_kinds_distinct defaultConfig timeoutTransport argsClaude
      ⟨defaultModel, [⟨some "user", some "hi"⟩], 7 / 10, 1000, false⟩ "read timeout"
      rfl).1 rfl

/- Lines of a character list, split on the newline character: the
   formalization of "the lines of the output" for C8. -/
def splitOnNewline (cs : List Char) : List (List Char) :=
  match cs with
  | [] => [[]]
  | c :: rest =>
      if c = '\n' then [] :: splitOnNewline rest
      else
        match splitOnNewline rest with
        | [] => [[c]]
        | l :: ls => (c :: l) :: ls

/- A model line of the list_models output: "- " followed by anything. -/
def isModelLine (l : List Char) : Bool :=
  match l with
  | '-' :: ' ' :: _ => true
  | _ => false

/-- C8: the list_models text names every allow-listed identifier, each
as its own "- model" line, and no other model line appears: the model
lines of the output are exactly the allow-list, in order. -/
theorem c8_list_models_exactly_allow_list :
    ((splitOnNewline models_text.data).filter isModelLine
      = SUPPORTED_MODELS.map (fun m => '-' :: ' ' :: m.data)) ∧
    handle_list_models = [⟨"text", models_text⟩] :=
  ⟨by decide, rfl⟩

/- Helper for C9: no error produced after validation, by either call
   path, is the UnsupportedModel kind. -/
theorem runDispatch_error_not_unsupported
    (cfg : Config) (t : Transport) (d : Dispatch) (m : String) :
    runDispatch cfg t d ≠ .error (.unsupportedModel m) := by
  cases d with
  | direct p =>
      cases h : t.direct (proxyRequest cfg p) with
      | response st b tx =>
          simp only [runDispatch, call_proxy_direct, h]
          split <;> simp
      | timeout s => simp [runDispatch, call_proxy_direct, h]
      | connectError s => simp [runDispatch, call_proxy_direct, h]
      | otherFailure s => simp [runDispatch, call_proxy_direct, h]
  | library p =>
      cases h : t.library p with
      | success b => simp [runDispatch, h]
      | failure s => simp [runDispatch, h]

/- Helper for C9: response normalization never produces the
   UnsupportedModel kind. -/
theorem extractText_error_not_unsupported (body : ResponseBody) (m : String) :
    extractText body ≠ .error (.unsupportedModel m) := by
  simp only [extractText]
  cases body.choices.getD [] <;> simp

/- Helper for C9: when the chosen model passes validation, the only
   error validation can still produce is InvalidMessages. -/
theorem validateAndDispatch_error_of_valid_model
    (cfg : Config) (args : Arguments)
    (hv : validate_model (args.model.getD defaultModel) = true)
    (e : CompletionError) (h : validateAndDispatch cfg args = .error e) :
    e = .invalidMessages := by
  unfold validateAndDispatch at h
  simp only [hv, Bool.true_eq_false, if_false] at h
  split at h
  · exact (Except.error.injEq _ _ ▸ h).symm
  · split at h <;> exact Except.noConfusion h

/- Helper for C9: whenever the chosen model passes validation, the try
   block never raises UnsupportedModel. -/
theorem handleCompletionBody_error_not_unsupported
    (cfg : Config) (t : Transport) (args : Arguments) (m : String)
    (hv : validate_model (args.model.getD defaultModel) = true) :
    handleCompletionBody cfg t args ≠ .error (.unsupportedModel m) := by
  intro h
  unfold handleCompletionBody at h
  cases hd : validateAndDispatch cfg args with
  | error e =>
      rw [hd] at h
      simp only [Bind.bind, Except.bind] at h
      have he : e = CompletionError.invalidMessages :=
        validateAndDispatch_error_of_valid_model cfg args hv e hd
      rw [he] at h
      exact CompletionError.noConfusion (Except.error.injEq _ _ ▸ h)
  | ok d =>
      rw [hd] at h
      simp only [Bind.bind, Except.bind] at h
      cases hb : runDispatch cfg t d with
      | error e2 =>
          rw [hb] at h
          simp only [Except.error.injEq] at h
          exact runDispatch_error_not_unsupported cfg t d m (h ▸ hb)
      | ok body =>
          rw [hb] at h
          simp only at h
          cases hx : extractText body with
          | error e3 =>
              rw [hx] at h
              simp only [Except.error.injEq] at h
              exact extractText_error_not_unsupported body m (h ▸ hx)
          | ok s =>
              rw [hx] at h
              simp only [Pure.pure, Except.pure] at h
              exact Except.noConfusion h

/-- C9: a call to complete whose arguments omit the model key never
fails with UnsupportedModel (whatever the other arguments and the
transport): the default identifier
anthropic.claude-3-7-sonnet-20250219-v1:0 is substituted, it passes
validation, and with any non-empty messages the request proceeds to the
direct dispatch path. -/
theorem c9_missing_model_defaults_to_claude
    (cfg : Config) (t : Transport) (args : Arguments)
    (hm : args.model = none) :
    (∀ m, handleCompletion cfg t args ≠ .error (.llmApiError (.unsupportedModel m))) ∧
    validate_model (args.model.getD defaultModel) = true ∧
    ((args.messages.getD []).isEmpty = false →
      validateAndDispatch cfg args = .ok (.direct
        ⟨defaultModel, args.messages.getD [], args.temperature.getD (7 / 10),
         args.max_tokens.getD 1000, args.stream.getD false⟩)) := by
  have hv : validate_model (args.model.getD defaultModel) = true := by
    simp [hm, validate_model, defaultModel, SUPPORTED_MODELS]
  refine ⟨?_, hv, ?_⟩
  · intro m hEq
    unfold handleCompletion at hEq
    cases hb : handleCompletionBody cfg t args with
    | ok r => rw [hb] at hEq; exact Except.noConfusion hEq
    | error e =>
        rw [hb] at hEq
        simp only [Except.error.injEq, CompletionError.llmApiError.injEq] at hEq
        exact handleCompletionBody_error_not_unsupported cfg t args m hv
          (hb.trans (by rw [hEq]))
  · intro hne
    have hvd : validate_model defaultModel = true := by decide
    simp [validateAndDispatch, hvd, hne, hm]

def argsNoModel : Arguments :=
  ⟨none, some [⟨some "user", some "hi"⟩], none, none, none⟩

/-- C9 witness: omitting the model key with a stub transport succeeds
via the direct path instead of failing with UnsupportedModel. -/
theorem c9_witness :
    argsNoModel.model = none ∧
    (∀ m, handleCompletion defaultConfig (stubTransport "4") argsNoModel
      ≠ .error (.llmApiError (.unsupportedModel m))) ∧
    validateAndDispatch defaultConfig argsNoModel
      = .ok (.direct ⟨defaultModel, [⟨some "user", some "hi"⟩], 7 / 10, 1000, false⟩) :=
  ⟨rfl,
    (c9_missing_model_defaults_to_claude defaultConfig (stubTransport "4") argsNoModel
      rfl).1,
    (c9_missing_model_defaults_to_claude defaultConfig (stubTransport "4") argsNoModel
      rfl).2.2 (by decide)⟩

/-- C10: for every remote response with status 200 whose first choice
lacks the message object or lacks the content field, complete does not
fail: it succeeds with the literal placeholder text
"Error: No response content.", on both call paths. -/
theorem c10_missing_content_yields_placeholder
    (cfg : Config) (t : Transport) (args : Arguments)
    (c : Choice) (rest : List Choice) (u : Option Usage) (txt : String)
    (hmiss : c.message = none ∨ c.message = some ⟨none⟩) :
    (∀ p, validateAndDispatch cfg args = .ok (.direct p) →
      t.direct (proxyRequest cfg p) = .response 200 ⟨some (c :: rest), u⟩ txt →
      handleCompletion cfg t args = .ok [⟨"text", "Error: No response content."⟩]) ∧
    (∀ p, validateAndDispatch cfg args = .ok (.library p) →
      t.library p = .success ⟨some (c :: rest), u⟩ →
      handleCompletion cfg t args = .ok [⟨"text", "Error: No response content."⟩]) := by
  constructor <;> intro p hd hr <;> rcases hmiss with hc | hc <;>
    simp [handleCompletion, handleCompletionBody, hd, runDispatch, call_proxy_direct,
      hr, extractText, hc, Bind.bind, Except.bind, Pure.pure, Except.pure]

def noContentTransport : Transport :=
  ⟨fun _ => .response 200 ⟨some [⟨none⟩], none⟩ "", fun _ => .failure "unused"⟩

/-- C10 witness: a first choice without a message object yields the
placeholder text. -/
theorem c10_witness :
    handleCompletion defaultConfig noContentTransport argsClaude
      = .ok [⟨"text", "Error: No response content."⟩] :=
  (c10_missing_content_yields_placeholder defaultConfig noContentTransport argsClaude
      ⟨none⟩ [] none "" (Or.inl rfl)).1
    ⟨defaultModel, [⟨some "user", some "hi"⟩], 7 / 10, 1000, false⟩ rfl rfl
